import Mathlib

/-!
# Verification development for the aegis customer-success core

Shallow embedding of the customer-state store (`src/aegis/state/state_manager.py`),
the health analyzer (`src/aegis/tools/customer_context.py`) and the proactive
intervention detector (`src/aegis/monitors/proactive_monitor.py`).

Modelling conventions:
* `datetime` values are rationals (seconds since an arbitrary epoch); Python
  float arithmetic on small quantities is modelled exactly over `ℚ`.
* Python dict-valued updates are association lists `List (String × PyValue)`;
  Python dicts preserve insertion order, which the list order mirrors.
* Fallible Python code is modelled with `Except PyErr` / an error component;
  exceptions raised mid-mutation leave the partially mutated state in the
  store, exactly as the in-place `setattr` loop of the source does.
-/

namespace Aegis

/-- The `OnboardingStage` enum from `state_manager.py`. -/
inductive OnboardingStage where
  | new
  | trial_created
  | api_keys_generated
  | first_api_call
  | integration_validated
  | production_ready
deriving DecidableEq, Repr

/-- Value string (`.value`) of an `OnboardingStage` member. -/
def stageValue : OnboardingStage → String
  | .new => "new"
  | .trial_created => "trial_created"
  | .api_keys_generated => "api_keys_generated"
  | .first_api_call => "first_api_call"
  | .integration_validated => "integration_validated"
  | .production_ready => "production_ready"

/-- Enum construction `OnboardingStage(value)`: the constructor succeeds exactly on the six
known value strings (otherwise Python raises `ValueError`). -/
def stageOfString (s : String) : Option OnboardingStage :=
  if s = "new" then some .new
  else if s = "trial_created" then some .trial_created
  else if s = "api_keys_generated" then some .api_keys_generated
  else if s = "first_api_call" then some .first_api_call
  else if s = "integration_validated" then some .integration_validated
  else if s = "production_ready" then some .production_ready
  else none

/-- The `SubscriptionTier` enum from `state_manager.py`. -/
inductive SubscriptionTier where
  | none
  | trial
  | starter
  | pro
  | enterprise
deriving DecidableEq, Repr

/-- Value string (`.value`) of a `SubscriptionTier` member. -/
def tierValue : SubscriptionTier → String
  | .none => "none"
  | .trial => "trial"
  | .starter => "starter"
  | .pro => "pro"
  | .enterprise => "enterprise"

/-- Enum construction `SubscriptionTier(value)`: succeeds exactly on the five known value strings. -/
def tierOfString (s : String) : Option SubscriptionTier :=
  if s = "none" then some .none
  else if s = "trial" then some .trial
  else if s = "starter" then some .starter
  else if s = "pro" then some .pro
  else if s = "enterprise" then some .enterprise
  else none

/-- The `CustomerProfile` dataclass of `state_manager.py`, with exactly the
fields the dataclass declares.  Note that it has NO `active_ticket_key` and
NO `last_ticket_at` field (the monitor nevertheless reads those attributes;
see `detect_issue`).  `workflow_metadata` is modelled as a string/string
association list. -/
structure CustomerProfile where
  customer_id : String
  email : String
  company : String
  created_at : ℚ
  subscription_tier : SubscriptionTier := SubscriptionTier.none
  subscription_id : Option String := Option.none
  onboarding_stage : OnboardingStage := OnboardingStage.new
  test_api_key : Option String := Option.none
  prod_api_key : Option String := Option.none
  last_api_call : Option ℚ := Option.none
  total_api_calls : Int := 0
  last_login : Option ℚ := Option.none
  integration_status : String := "not_started"
  tech_stack : List String := []
  error_rate : ℚ := 0
  usage_trend : String := "stable"
  next_check : Option ℚ := Option.none
  workflow_metadata : List (String × String) := []
deriving DecidableEq, Repr

/-- Python runtime values appearing in update dicts. -/
inductive PyValue where
  | pstr (s : String)
  | pint (n : Int)
  | prat (q : ℚ)
  | pdt (t : ℚ)
  | pnone
  | plist (l : List String)
  | pdict (l : List (String × String))
deriving DecidableEq, Repr

/-- Python exceptions raised by the modelled code.  `unmodelled` marks a
dynamically-typed assignment (a value whose runtime shape does not match the
declared field type) that the typed embedding does not cover; no code path of
the repository and no claim exercises such an assignment. -/
inductive PyErr where
  | valueError (msg : String)
  | attributeError (attr : String)
  | unmodelled (what : String)
deriving DecidableEq, Repr

/-- Python `hasattr(customer, name)` for a `CustomerProfile` instance: true exactly on
the dataclass fields and the `to_dict` method.  In particular it is false for
`active_ticket_key` and `last_ticket_at`. -/
def hasattrCP (name : String) : Bool :=
  name ∈ ["customer_id", "email", "company", "created_at",
          "subscription_tier", "subscription_id", "onboarding_stage",
          "test_api_key", "prod_api_key",
          "last_api_call", "total_api_calls", "last_login",
          "integration_status", "tech_stack",
          "error_rate", "usage_trend",
          "next_check", "workflow_metadata", "to_dict"]

/-- One step of the update loop of `StateManager.update_customer`: the enum
conversions (`OnboardingStage(value)` / `SubscriptionTier(value)` when the
value is a string, raising `ValueError` on an unknown string) followed by
`setattr`.  Error message texts are not reproduced verbatim. -/
def applyField (p : CustomerProfile) (key : String) (v : PyValue) :
    Except PyErr CustomerProfile :=
  if key = "onboarding_stage" then
    match v with
    | .pstr s =>
      match stageOfString s with
      | some st => .ok { p with onboarding_stage := st }
      | Option.none => .error (.valueError (s ++ " is not a valid OnboardingStage"))
    | _ => .error (.unmodelled "onboarding_stage assigned a non-string value")
  else if key = "subscription_tier" then
    match v with
    | .pstr s =>
      match tierOfString s with
      | some tr => .ok { p with subscription_tier := tr }
      | Option.none => .error (.valueError (s ++ " is not a valid SubscriptionTier"))
    | _ => .error (.unmodelled "subscription_tier assigned a non-string value")
  else if key = "customer_id" then
    match v with
    | .pstr s => .ok { p with customer_id := s }
    | _ => .error (.unmodelled key)
  else if key = "email" then
    match v with
    | .pstr s => .ok { p with email := s }
    | _ => .error (.unmodelled key)
  else if key = "company" then
    match v with
    | .pstr s => .ok { p with company := s }
    | _ => .error (.unmodelled key)
  else if key = "created_at" then
    match v with
    | .pdt t => .ok { p with created_at := t }
    | _ => .error (.unmodelled key)
  else if key = "subscription_id" then
    match v with
    | .pstr s => .ok { p with subscription_id := some s }
    | .pnone => .ok { p with subscription_id := Option.none }
    | _ => .error (.unmodelled key)
  else if key = "test_api_key" then
    match v with
    | .pstr s => .ok { p with test_api_key := some s }
    | .pnone => .ok { p with test_api_key := Option.none }
    | _ => .error (.unmodelled key)
  else if key = "prod_api_key" then
    match v with
    | .pstr s => .ok { p with prod_api_key := some s }
    | .pnone => .ok { p with prod_api_key := Option.none }
    | _ => .error (.unmodelled key)
  else if key = "last_api_call" then
    match v with
    | .pdt t => .ok { p with last_api_call := some t }
    | .pnone => .ok { p with last_api_call := Option.none }
    | _ => .error (.unmodelled key)
  else if key = "total_api_calls" then
    match v with
    | .pint n => .ok { p with total_api_calls := n }
    | _ => .error (.unmodelled key)
  else if key = "last_login" then
    match v with
    | .pdt t => .ok { p with last_login := some t }
    | .pnone => .ok { p with last_login := Option.none }
    | _ => .error (.unmodelled key)
  else if key = "integration_status" then
    match v with
    | .pstr s => .ok { p with integration_status := s }
    | _ => .error (.unmodelled key)
  else if key = "tech_stack" then
    match v with
    | .plist l => .ok { p with tech_stack := l }
    | _ => .error (.unmodelled key)
  else if key = "error_rate" then
    match v with
    | .prat q => .ok { p with error_rate := q }
    | _ => .error (.unmodelled key)
  else if key = "usage_trend" then
    match v with
    | .pstr s => .ok { p with usage_trend := s }
    | _ => .error (.unmodelled key)
  else if key = "next_check" then
    match v with
    | .pdt t => .ok { p with next_check := some t }
    | .pnone => .ok { p with next_check := Option.none }
    | _ => .error (.unmodelled key)
  else if key = "workflow_metadata" then
    match v with
    | .pdict l => .ok { p with workflow_metadata := l }
    | _ => .error (.unmodelled key)
  else
    -- reassigning the bound method attribute `to_dict` never happens
    .error (.unmodelled key)

/-- The `for key, value in updates.items()` loop of `update_customer`:
keys failing `hasattr` are silently skipped; a `ValueError` raised by an enum
conversion aborts the loop, but the fields already written by earlier
iterations stay mutated (the source mutates the stored object in place). -/
def updateLoop (p : CustomerProfile) :
    List (String × PyValue) → CustomerProfile × Option PyErr
  | [] => (p, Option.none)
  | (key, v) :: rest =>
    if hasattrCP key then
      match applyField p key v with
      | .ok p2 => updateLoop p2 rest
      | .error e => (p, some e)
    else
      updateLoop p rest

/-- The customer store: Python dict keyed by `customer_id`
(insertion-ordered). -/
abbrev Store := List (String × CustomerProfile)

/-- Dict lookup `self._customers.get(customer_id)`. -/
def lookupCustomer (store : Store) (cid : String) : Option CustomerProfile :=
  (store.find? (fun kv => kv.1 = cid)).map (fun kv => kv.2)

/-- Replace the stored profile under `cid` (in-place object mutation). -/
def storeSet (store : Store) (cid : String) (p : CustomerProfile) : Store :=
  store.map (fun kv => if kv.1 = cid then (kv.1, p) else kv)

/-- Operation `StateManager.update_customer`: unknown id raises `ValueError`; otherwise
the update loop runs over the supplied fields and the (possibly partially)
mutated profile stays in the store even when the loop raises. -/
def update_customer (store : Store) (cid : String)
    (updates : List (String × PyValue)) : Store × Except PyErr CustomerProfile :=
  match lookupCustomer store cid with
  | Option.none => (store, .error (.valueError ("Customer " ++ cid ++ " not found")))
  | some p =>
    let r := updateLoop p updates
    let store2 := storeSet store cid r.1
    match r.2 with
    | some e => (store2, .error e)
    | Option.none => (store2, .ok r.1)

/-- Operation `StateManager.create_customer`: an id already present raises `ValueError`
before any mutation; otherwise the new profile is inserted. -/
def create_customer (store : Store) (p : CustomerProfile) :
    Store × Except PyErr CustomerProfile :=
  if (lookupCustomer store p.customer_id).isSome then
    (store, .error (.valueError ("Customer " ++ p.customer_id ++ " already exists")))
  else
    (store ++ [(p.customer_id, p)], .ok p)

/-- Python `round(x, 1)` on the hours value.  Python uses round-half-to-even
on binary floats; the two agree except at representation edge cases, which no
quantity in this development touches. -/
def pyRound1 (q : ℚ) : ℚ := (round (q * 10) : ℚ) / 10

/-- The `metrics` sub-dict built by `get_customer_health`
(`customer_context.py`).  `hours_since_signup` carries the `round(·, 1)`
applied when the dict is built. -/
structure HealthMetrics where
  total_api_calls : Int
  hours_since_last_api_call : Option ℚ
  hours_since_signup : ℚ
  error_rate : ℚ
  usage_trend : String
  integration_status : String
deriving DecidableEq, Repr

/-- The health dict returned by `get_customer_health`.  The display-only
`risk_factors` strings and the `signals` booleans are omitted: they are
formatted/derived views of the same fields and no control flow in the core
reads them back. -/
structure Health where
  customer_id : String
  health_status : String
  engagement_score : Int
  metrics : HealthMetrics
deriving DecidableEq, Repr

/-- The `health_status` computation of `get_customer_health`, lines 82-101:
a sequence of reassignments, so a later matching check OVERWRITES an earlier
one (the `new` check runs last).  `hours` is the unrounded
`hours_since_signup`. -/
def healthStatusCode (c : CustomerProfile) (hours : ℚ) : String :=
  let s0 := "healthy"
  let s1 := if 1/10 < c.error_rate then "at_risk" else s0
  let s2 := if c.usage_trend = "declining" then "at_risk" else s1
  let s3 := if stageValue c.onboarding_stage ∈ ["api_keys_generated", "trial_created"]
               ∧ 48 < hours ∧ c.total_api_calls = 0 then "needs_attention" else s2
  if c.total_api_calls = 0 ∧ hours < 24 then "new" else s3

/-- The engagement-score computation of `get_customer_health`, lines 103-117:
a running sum starting at 50 with four independent bonuses, capped by
`min(engagement_score, 100)`. -/
def engagementScoreCode (c : CustomerProfile) : Int :=
  let s := 50 + (if 0 < c.total_api_calls then 20 else 0)
             + (if c.integration_status = "live" then 20 else 0)
             + (if c.error_rate < 1/20 then 10 else 0)
             + (if c.usage_trend = "increasing" then 10 else 0)
  min s 100

/-- Analysis `get_customer_health(customer_id)` for a found customer, as a pure
function of the profile and the current time (the source reads the profile
from the store and `datetime.now()`). -/
def get_customer_health (c : CustomerProfile) (now : ℚ) : Health :=
  let hours_since_signup := (now - c.created_at) / 3600
  { customer_id := c.customer_id
    health_status := healthStatusCode c hours_since_signup
    engagement_score := engagementScoreCode c
    metrics :=
      { total_api_calls := c.total_api_calls
        hours_since_last_api_call := c.last_api_call.map (fun t => (now - t) / 3600)
        hours_since_signup := pyRound1 hours_since_signup
        error_rate := c.error_rate
        usage_trend := c.usage_trend
        integration_status := c.integration_status } }

/-- An intervention record appended to `ProactiveMonitor.interventions`.
Only the fields that other code reads back are modelled
(`_recently_intervened` reads `customer_id`, `type`, `created_at`); the
free-text display fields (`reason`, `message`, `diagnosis`, `actions_taken`,
`next_steps`, `customer_name`, `recommended_action`) are omitted.  `itype`
models the dict key `type`; an absent `jira_ticket` key is `Option.none`. -/
structure Intervention where
  itype : String
  customer_id : String
  priority : String
  created_at : ℚ
  jira_ticket : Option String := Option.none
deriving DecidableEq, Repr

/-- Check `ProactiveMonitor._recently_intervened`: scan the log most-recent-first
for a record with the same customer and type newer than `now - 24h`. -/
def recently_intervened (log : List Intervention) (now : ℚ)
    (cid ty : String) : Bool :=
  log.reverse.any fun i =>
    decide (i.customer_id = cid) && decide (i.itype = ty)
      && decide (now - 24 * 3600 < i.created_at)

/-- Detector `ProactiveMonitor._detect_issue`.  Each rule body ends in `return`, so the
four checks form a fall-through chain: the first rule that fires returns its
record and no later rule is evaluated; a rule whose condition fails, or whose
emission is suppressed by `_recently_intervened`, falls through to the next.

Rules 2 and 3 begin with `jira_ticket = customer.active_ticket_key`:
`CustomerProfile` declares no `active_ticket_key` attribute and no code path
ever sets one (`update_customer` silently drops unknown keys), so this
attribute lookup raises `AttributeError`; the rest of those branches (the
24-hour ticket-dedup check, `_create_jira_ticket`, and the persistence of
`last_ticket_at` / `active_ticket_key` back onto the profile) is unreachable. -/
def detect_issue (c : CustomerProfile) (health : Health)
    (log : List Intervention) (now : ℚ) : Except PyErr (Option Intervention) :=
  -- Intervention 1: onboarding stuck
  if c.onboarding_stage = OnboardingStage.api_keys_generated
      ∧ c.total_api_calls = 0
      ∧ 24 < health.metrics.hours_since_signup
      ∧ recently_intervened log now c.customer_id "onboarding_check_in" = false then
    .ok (some { itype := "onboarding_check_in", customer_id := c.customer_id,
                priority := "medium", created_at := now })
  -- Intervention 2: high error rate
  else if 1/10 < health.metrics.error_rate
      ∧ 10 < c.total_api_calls
      ∧ recently_intervened log now c.customer_id "error_debugging" = false then
    .error (.attributeError "active_ticket_key")
  -- Intervention 3: usage declining (churn risk)
  else if health.metrics.usage_trend = "declining"
      ∧ tierValue c.subscription_tier ∈ ["pro", "enterprise"]
      ∧ recently_intervened log now c.customer_id "retention_outreach" = false then
    .error (.attributeError "active_ticket_key")
  -- Intervention 4: usage spike (upsell opportunity)
  else if health.metrics.usage_trend = "increasing"
      ∧ 1000 < c.total_api_calls
      ∧ tierValue c.subscription_tier ∈ ["trial", "starter"]
      ∧ recently_intervened log now c.customer_id "upsell_suggestion" = false then
    .ok (some { itype := "upsell_suggestion", customer_id := c.customer_id,
                priority := "medium", created_at := now })
  else
    .ok (Option.none)

/-- Append `self.interventions.append(intervention)` followed by
`self.interventions = self.interventions[-50:]`
(`_check_all_customers`, lines 105-107). -/
def appendCapped (log : List Intervention) (r : Intervention) : List Intervention :=
  ((log ++ [r]).drop (log.length + 1 - 50))

/-- One tick of `ProactiveMonitor._check_all_customers` over a snapshot of
customers: per customer, compute health, run the detector, append any record
under the 50-cap; a per-customer exception is caught and logged, leaving the
log as it was for that customer. -/
def tick (customers : List CustomerProfile) (log : List Intervention)
    (now : ℚ) : List Intervention :=
  customers.foldl
    (fun acc c =>
      match detect_issue c (get_customer_health c now) acc now with
      | .ok (some r) => appendCapped acc r
      | .ok Option.none => acc
      | .error _ => acc)
    log

/-! ## Spec-side definitions (written from the spec wording, for comparison
with the code-side definitions above) -/

/-- Spec §4.2 wording for the engagement score: "start at 50; +20 if
total_api_calls>0; +20 if integration_status==live; +10 if error_rate<0.05;
+10 if usage_trend==increasing; clamp to [0,100]". -/
def engagementScoreSpec (c : CustomerProfile) : Int :=
  max 0 (min (50 + (if 0 < c.total_api_calls then 20 else 0)
                 + (if c.integration_status = "live" then 20 else 0)
                 + (if c.error_rate < 1/20 then 10 else 0)
                 + (if c.usage_trend = "increasing" then 10 else 0)) 100)

/-- Spec §4.2 wording for the status, "first matching wins": at_risk, else
needs_attention, else new, else healthy (the precedence claimed by C3). -/
def healthStatusFirstMatch (c : CustomerProfile) (now : ℚ) : String :=
  let hours := (now - c.created_at) / 3600
  if 1/10 < c.error_rate ∨ c.usage_trend = "declining" then "at_risk"
  else if stageValue c.onboarding_stage ∈ ["api_keys_generated", "trial_created"]
          ∧ 48 < hours ∧ c.total_api_calls = 0 then "needs_attention"
  else if c.total_api_calls = 0 ∧ hours < 24 then "new"
  else "healthy"

/-- The precedence the code actually implements (each later check overwrites
the earlier assignment, so the chain reads in the REVERSE order of the spec):
new, else needs_attention, else at_risk, else healthy. -/
def healthStatusLastWins (c : CustomerProfile) (now : ℚ) : String :=
  let hours := (now - c.created_at) / 3600
  if c.total_api_calls = 0 ∧ hours < 24 then "new"
  else if stageValue c.onboarding_stage ∈ ["api_keys_generated", "trial_created"]
          ∧ 48 < hours ∧ c.total_api_calls = 0 then "needs_attention"
  else if 1/10 < c.error_rate ∨ c.usage_trend = "declining" then "at_risk"
  else "healthy"

/-! ## Concrete fixtures -/

/-- A customer stalled in onboarding: keys generated, zero calls, signed up
at time 0 (checked 26 hours later). -/
def cStalled : CustomerProfile :=
  { customer_id := "cust_stalled", email := "a@example.com", company := "Acme",
    created_at := 0,
    subscription_tier := SubscriptionTier.trial,
    onboarding_stage := OnboardingStage.api_keys_generated }

/-- A customer satisfying BOTH the stalled-onboarding rule condition and the
churn-risk rule condition (declining usage on the pro tier). -/
def cStalledDeclining : CustomerProfile :=
  { cStalled with customer_id := "cust_both",
                  subscription_tier := SubscriptionTier.pro,
                  usage_trend := "declining" }

/-- A customer tripping the error-spike rule: 20% error rate over 20 calls. -/
def cErrSpike : CustomerProfile :=
  { customer_id := "cust_err", email := "b@example.com", company := "Beta",
    created_at := 0,
    subscription_tier := SubscriptionTier.starter,
    onboarding_stage := OnboardingStage.first_api_call,
    total_api_calls := 20,
    error_rate := 1/5 }

/-- A young profile with a high error rate and no calls (the C3
counterexample input: one hour old). -/
def cYoungErr : CustomerProfile :=
  { customer_id := "cust_young", email := "c@example.com", company := "Gamma",
    created_at := 0,
    error_rate := 1/5,
    usage_trend := "declining" }

/-- A store holding exactly `cErrSpike`. -/
def store1 : Store := [("cust_err", cErrSpike)]

/-- Record number `i` of the 55-record eviction scenario. -/
def mkRec (i : Nat) : Intervention :=
  { itype := "onboarding_check_in", customer_id := toString i,
    priority := "medium", created_at := 0 }

/-- The record the stalled-onboarding rule emits for `cStalled` at 26 hours. -/
def onbRecStalled : Intervention :=
  { itype := "onboarding_check_in", customer_id := "cust_stalled",
    priority := "medium", created_at := 26 * 3600 }

/-! ## Helper lemmas -/

/-- Folding capped appends from the empty log keeps exactly the trailing 50
records. -/
theorem foldl_appendCapped (l : List Intervention) :
    List.foldl appendCapped [] l = l.drop (l.length - 50) := by
  induction l using List.reverseRecOn with
  | nil => simp
  | append_singleton l r ih =>
    rw [List.foldl_append, ih]
    simp only [List.foldl_cons, List.foldl_nil, appendCapped]
    have hlen : (l.drop (l.length - 50)).length = l.length - (l.length - 50) :=
      List.length_drop _ _
    have h1 : l.drop (l.length - 50) ++ [r] = (l ++ [r]).drop (l.length - 50) := by
      rw [List.drop_append_of_le_length (by omega)]
    rw [h1, List.drop_drop, List.length_append]
    congr 1
    simp only [hlen, List.length_singleton]
    omega

/-- Unfolding lemma: assigning `total_api_calls` an int value. -/
theorem applyField_calls (p : CustomerProfile) (n : Int) :
    applyField p "total_api_calls" (PyValue.pint n)
      = .ok { p with total_api_calls := n } := rfl

/-- Unfolding lemma: assigning `error_rate` a float value (no range check). -/
theorem applyField_error_rate (p : CustomerProfile) (q : ℚ) :
    applyField p "error_rate" (PyValue.prat q)
      = .ok { p with error_rate := q } := rfl

/-- Unfolding lemma: assigning `onboarding_stage` an unknown string raises. -/
theorem applyField_stage_invalid (p : CustomerProfile) (s : String)
    (hs : stageOfString s = Option.none) :
    applyField p "onboarding_stage" (PyValue.pstr s)
      = .error (.valueError (s ++ " is not a valid OnboardingStage")) := by
  have h : applyField p "onboarding_stage" (PyValue.pstr s)
      = (match stageOfString s with
         | some st => Except.ok { p with onboarding_stage := st }
         | Option.none =>
             Except.error (.valueError (s ++ " is not a valid OnboardingStage"))) := rfl
  rw [h, hs]

/-! ## Claim theorems -/

/-- C1, counterexample.  At `cStalledDeclining` (stalled onboarding AND
declining usage on the pro tier, nothing suppressed) the churn-risk rule
condition holds, yet the cycle emits only the onboarding record and no
`retention_outreach` record: the rules are not evaluated independently, so
the claim that all matching rules fire in the same cycle is false. -/
theorem detect_issue_not_independent :
    (cStalledDeclining.usage_trend = "declining"
      ∧ tierValue cStalledDeclining.subscription_tier ∈ ["pro", "enterprise"]
      ∧ recently_intervened [] (26 * 3600) cStalledDeclining.customer_id
          "retention_outreach" = false)
    ∧ tick [cStalledDeclining] [] (26 * 3600)
        = [{ itype := "onboarding_check_in", customer_id := "cust_both",
             priority := "medium", created_at := 26 * 3600 }] := by
  refine ⟨⟨rfl, by norm_num [cStalledDeclining, cStalled, tierValue], rfl⟩, ?_⟩
  norm_num [tick, detect_issue, get_customer_health, healthStatusCode,
            cStalledDeclining, cStalled, pyRound1, round_eq,
            recently_intervened, appendCapped, tierValue, stageValue]

/-- C1, amended.  The four rule checks form a priority chain with early
return: whenever the first (stalled-onboarding) rule fires, its record is the
whole result of the cycle for that customer — the later rules are not
evaluated and emit nothing, whatever their conditions. -/
theorem detect_issue_priority_chain (c : CustomerProfile)
    (log : List Intervention) (now : ℚ)
    (h1 : c.onboarding_stage = OnboardingStage.api_keys_generated)
    (h2 : c.total_api_calls = 0)
    (h3 : 24 < (get_customer_health c now).metrics.hours_since_signup)
    (h4 : recently_intervened log now c.customer_id "onboarding_check_in" = false) :
    detect_issue c (get_customer_health c now) log now
      = .ok (some { itype := "onboarding_check_in", customer_id := c.customer_id,
                    priority := "medium", created_at := now }) := by
  unfold detect_issue
  rw [if_pos ⟨h1, h2, h3, h4⟩]

/-- C1, witness for the amended theorem at `cStalled`, 26 hours in. -/
theorem detect_issue_priority_chain_witness :
    detect_issue cStalled (get_customer_health cStalled (26 * 3600)) []
        (26 * 3600)
      = .ok (some { itype := "onboarding_check_in", customer_id := "cust_stalled",
                    priority := "medium", created_at := 26 * 3600 }) :=
  detect_issue_priority_chain cStalled [] (26 * 3600) rfl rfl
    (by norm_num [get_customer_health, cStalled, pyRound1, round_eq]) rfl

/-- C2 (code bug).  The escalation-dedup behaviour the spec describes cannot
execute: `CustomerProfile` has no `active_ticket_key` / `last_ticket_at`
attribute, so the error-spike rule raises `AttributeError` on the very first
ticket-related statement (shown at the concrete failing input `cErrSpike`:
20% error rate over 20 calls, no recent intervention), and even the
persistence step the spec describes would be a silent no-op, because
`update_customer` drops unknown field names. -/
theorem escalation_dedup_impossible :
    detect_issue cErrSpike (get_customer_health cErrSpike 3600) [] 3600
        = .error (.attributeError "active_ticket_key")
    ∧ hasattrCP "active_ticket_key" = false
    ∧ hasattrCP "last_ticket_at" = false
    ∧ ∀ (p : CustomerProfile) (t : ℚ) (k : String),
        updateLoop p [("last_ticket_at", PyValue.pdt t),
                      ("active_ticket_key", PyValue.pstr k)] = (p, Option.none) := by
  refine ⟨?_, rfl, rfl, fun p t k => rfl⟩
  norm_num [detect_issue, get_customer_health, healthStatusCode,
            cErrSpike, pyRound1, round_eq, recently_intervened]

/-- C3, counterexample.  A one-hour-old profile with a 20% error rate is
classified `new`, not `at_risk`: the claimed first-matching-wins precedence
(formalised as `healthStatusFirstMatch`) disagrees with the code at this
input. -/
theorem health_status_precedence_cex :
    1/10 < cYoungErr.error_rate
    ∧ healthStatusFirstMatch cYoungErr 3600 = "at_risk"
    ∧ (get_customer_health cYoungErr 3600).health_status = "new" := by
  refine ⟨by norm_num [cYoungErr], ?_, ?_⟩
  · norm_num [healthStatusFirstMatch, cYoungErr]
  · norm_num [get_customer_health, healthStatusCode, cYoungErr]

/-- C3, amended.  The status checks are sequential reassignments, so the LAST
matching check wins; equivalently the precedence is the reverse of the
claimed one: new, else needs_attention, else at_risk (error_rate>0.10 or
declining), else healthy.  In particular a profile with error_rate>0.10 is
at_risk only when neither the new nor the needs_attention condition holds. -/
theorem health_status_last_wins (c : CustomerProfile) (now : ℚ) :
    (get_customer_health c now).health_status = healthStatusLastWins c now := by
  simp only [get_customer_health, healthStatusCode, healthStatusLastWins]
  split_ifs <;> first | rfl | tauto

/-- C4, counterexample.  Updating `cErrSpike` with a valid field followed by
an unknown enum string raises the `ValueError` only after the first field was
already written: the error is not raised before mutation and the write is
partial.  Moreover an out-of-range `error_rate` of 5.0 is accepted without
any validation error. -/
theorem update_validation_cex :
    (update_customer store1 "cust_err"
        [("total_api_calls", PyValue.pint 5),
         ("onboarding_stage", PyValue.pstr "bogus")]).2
      = .error (.valueError "bogus is not a valid OnboardingStage")
    ∧ lookupCustomer
        (update_customer store1 "cust_err"
          [("total_api_calls", PyValue.pint 5),
           ("onboarding_stage", PyValue.pstr "bogus")]).1 "cust_err"
      = some { cErrSpike with total_api_calls := 5 }
    ∧ (update_customer store1 "cust_err" [("error_rate", PyValue.prat 5)]).2
      = .ok { cErrSpike with error_rate := 5 } := by
  refine ⟨rfl, rfl, rfl⟩

/-- C4, amended.  An unknown enum string for `onboarding_stage` fails the call
with a `ValueError` at the point that field is processed, but fields written
earlier in the same call stay applied (a partial write); and `error_rate` is
not range-checked at all — any value is stored successfully. -/
theorem update_validation_amended :
    (∀ (p : CustomerProfile) (n : Int) (s : String),
      stageOfString s = Option.none →
      updateLoop p [("total_api_calls", PyValue.pint n),
                    ("onboarding_stage", PyValue.pstr s)]
        = ({ p with total_api_calls := n },
           some (PyErr.valueError (s ++ " is not a valid OnboardingStage"))))
    ∧ ∀ (p : CustomerProfile) (q : ℚ),
        updateLoop p [("error_rate", PyValue.prat q)]
          = ({ p with error_rate := q }, Option.none) := by
  constructor
  · intro p n s hs
    have h1 : updateLoop p [("total_api_calls", PyValue.pint n),
                            ("onboarding_stage", PyValue.pstr s)]
        = updateLoop { p with total_api_calls := n }
            [("onboarding_stage", PyValue.pstr s)] := rfl
    rw [h1]
    simp [updateLoop, hasattrCP, applyField_stage_invalid _ _ hs]
  · intro p q
    rfl

/-- C4, witness for the amended theorem at the string "bogus" and a profile. -/
theorem update_validation_amended_witness :
    stageOfString "bogus" = Option.none
    ∧ updateLoop cErrSpike [("total_api_calls", PyValue.pint 5),
                            ("onboarding_stage", PyValue.pstr "bogus")]
        = ({ cErrSpike with total_api_calls := 5 },
           some (PyErr.valueError ("bogus" ++ " is not a valid OnboardingStage"))) :=
  ⟨rfl, update_validation_amended.1 cErrSpike 5 "bogus" rfl⟩

/-- C5 (confirmed).  First conjunct: whenever the log already holds a record
with the same customer and type younger than 24 hours, the detector cannot
emit another record of that type this cycle (each rule guards its emission
with its own suppression check).  Second conjunct: the concrete scenario —
for the stalled customer at 26 hours, one tick appends exactly one
`onboarding_check_in` record, and a second tick run immediately afterwards
appends nothing. -/
theorem suppression_24h :
    (∀ (c : CustomerProfile) (h : Health) (log : List Intervention) (now : ℚ)
       (ty : String) (r : Intervention),
        recently_intervened log now c.customer_id ty = true →
        detect_issue c h log now = .ok (some r) →
        r.itype ≠ ty)
    ∧ tick [cStalled] [] (26 * 3600) = [onbRecStalled]
    ∧ tick [cStalled] [onbRecStalled] (26 * 3600) = [onbRecStalled] := by
  refine ⟨?_, ?_, ?_⟩
  · intro c h log now ty r hrec hdet
    unfold detect_issue at hdet
    split_ifs at hdet with hc1 hc2 hc3 hc4
    · obtain ⟨-, -, -, hno⟩ := hc1
      simp only [Except.ok.injEq, Option.some.injEq] at hdet
      subst hdet
      rintro rfl
      simp_all
    · obtain ⟨-, -, -, hno⟩ := hc4
      simp only [Except.ok.injEq, Option.some.injEq] at hdet
      subst hdet
      rintro rfl
      simp_all
    · exact absurd hdet (by simp)
  · norm_num [tick, detect_issue, get_customer_health, healthStatusCode,
              cStalled, onbRecStalled, pyRound1, round_eq,
              recently_intervened, appendCapped, tierValue, stageValue]
  · norm_num [tick, detect_issue, get_customer_health, healthStatusCode,
              cStalled, onbRecStalled, pyRound1, round_eq,
              recently_intervened, appendCapped, tierValue, stageValue]
    simp

/-- C5, witness: with a fresh retention record in the log, the suppression
statement applies to the record the stalled customer emits. -/
theorem suppression_24h_witness :
    recently_intervened
        [{ itype := "retention_outreach", customer_id := "cust_stalled",
           priority := "high", created_at := 25 * 3600 }] (26 * 3600)
        cStalled.customer_id "retention_outreach" = true
    ∧ detect_issue cStalled (get_customer_health cStalled (26 * 3600))
        [{ itype := "retention_outreach", customer_id := "cust_stalled",
           priority := "high", created_at := 25 * 3600 }] (26 * 3600)
      = .ok (some onbRecStalled)
    ∧ onbRecStalled.itype ≠ "retention_outreach" := by
  have hrec : recently_intervened
      [{ itype := "retention_outreach", customer_id := "cust_stalled",
         priority := "high", created_at := 25 * 3600 }] (26 * 3600)
      cStalled.customer_id "retention_outreach" = true := by
    norm_num [recently_intervened, cStalled]
  have hdet : detect_issue cStalled (get_customer_health cStalled (26 * 3600))
      [{ itype := "retention_outreach", customer_id := "cust_stalled",
         priority := "high", created_at := 25 * 3600 }] (26 * 3600)
      = .ok (some onbRecStalled) := by
    norm_num [detect_issue, get_customer_health, healthStatusCode, cStalled,
              onbRecStalled, pyRound1, round_eq, recently_intervened]
    simp
  exact ⟨hrec, hdet, suppression_24h.1 cStalled _ _ _ _ _ hrec hdet⟩

/-- C6 (confirmed).  The intervention log is a FIFO ring buffer capped at 50:
every append leaves at most 50 records, the result is the trailing slice of
the old log (insertion order preserved) followed by the new record (the
oldest records are the ones evicted), and appending any 55 records into an
empty log leaves exactly the 50 most recent, the 5 oldest gone. -/
theorem log_ring_buffer :
    (∀ (log : List Intervention) (r : Intervention),
        (appendCapped log r).length ≤ 50)
    ∧ (∀ (log : List Intervention) (r : Intervention),
        appendCapped log r = log.drop (log.length + 1 - 50) ++ [r])
    ∧ ∀ (l : List Intervention), l.length = 55 →
        List.foldl appendCapped [] l = l.drop 5 ∧ (l.drop 5).length = 50 := by
  refine ⟨?_, ?_, ?_⟩
  · intro log r
    have h := List.length_drop (log.length + 1 - 50) (log ++ [r])
    simp only [appendCapped, h, List.length_append, List.length_singleton]
    omega
  · intro log r
    simp only [appendCapped]
    rw [List.drop_append_of_le_length (by omega)]
  · intro l hl
    constructor
    · rw [foldl_appendCapped, hl]
    · rw [List.length_drop, hl]

/-- C6, witness: the 55 concrete records `mkRec 0 … mkRec 54`. -/
theorem log_ring_buffer_witness :
    ((List.range 55).map mkRec).length = 55
    ∧ List.foldl appendCapped [] ((List.range 55).map mkRec)
        = ((List.range 55).map mkRec).drop 5
    ∧ (((List.range 55).map mkRec).drop 5).length = 50 := by
  have h55 : ((List.range 55).map mkRec).length = 55 := by simp
  have h := log_ring_buffer.2.2 ((List.range 55).map mkRec) h55
  exact ⟨h55, h.1, h.2⟩

/-- C7 (confirmed).  The engagement score the analyzer returns is exactly the
spec formula (50 plus the four bonuses, clamped to the interval from 0 to
100) and always lies between 0 and 100; the code writes the clamp as
`min(score, 100)`, which coincides with the two-sided clamp because the sum
is at least 50. -/
theorem engagement_score_bounds (c : CustomerProfile) (now : ℚ) :
    (get_customer_health c now).engagement_score = engagementScoreSpec c
    ∧ 0 ≤ (get_customer_health c now).engagement_score
    ∧ (get_customer_health c now).engagement_score ≤ 100 := by
  simp only [get_customer_health, engagementScoreCode, engagementScoreSpec]
  split_ifs <;> norm_num

/-- C8 (confirmed).  Creating a customer whose id is already present fails
with the already-exists `ValueError` and returns the store unchanged: the
existing profile is not overwritten and no entry is added. -/
theorem create_duplicate_rejected (store : Store) (p q : CustomerProfile)
    (h : lookupCustomer store p.customer_id = some q) :
    create_customer store p
      = (store, .error (.valueError
          ("Customer " ++ p.customer_id ++ " already exists"))) := by
  unfold create_customer
  rw [if_pos (by rw [h]; rfl)]

/-- C8, witness: creating `cErrSpike` again over `store1`. -/
theorem create_duplicate_rejected_witness :
    create_customer store1 cErrSpike
      = (store1, .error (.valueError
          ("Customer " ++ cErrSpike.customer_id ++ " already exists"))) :=
  create_duplicate_rejected store1 cErrSpike cErrSpike rfl

/-- C10 (confirmed).  An update key that is not an attribute of
`CustomerProfile` — such as `active_ticket_key` or `last_ticket_at` — is
silently skipped: the loop continues with the remaining fields exactly as if
the key were absent, and a call mixing such keys with a recognized field
still applies the recognized field and reports success. -/
theorem update_unknown_fields_ignored :
    (hasattrCP "active_ticket_key" = false
      ∧ hasattrCP "last_ticket_at" = false)
    ∧ (∀ (p : CustomerProfile) (name : String) (v : PyValue)
         (rest : List (String × PyValue)),
        hasattrCP name = false →
        updateLoop p ((name, v) :: rest) = updateLoop p rest)
    ∧ ∀ (p : CustomerProfile) (t : ℚ) (k : String) (n : Int),
        updateLoop p [("last_ticket_at", PyValue.pdt t),
                      ("active_ticket_key", PyValue.pstr k),
                      ("total_api_calls", PyValue.pint n)]
          = ({ p with total_api_calls := n }, Option.none) := by
  refine ⟨⟨rfl, rfl⟩, ?_, fun p t k n => rfl⟩
  intro p name v rest hname
  simp only [updateLoop, hname, Bool.false_eq_true, if_false]

/-- C10, witness: skipping the two ticket keys while applying a call count. -/
theorem update_unknown_fields_ignored_witness :
    hasattrCP "active_ticket_key" = false
    ∧ updateLoop cErrSpike [("active_ticket_key", PyValue.pstr "KAN-7")]
        = updateLoop cErrSpike [] :=
  ⟨rfl, update_unknown_fields_ignored.2.1 cErrSpike "active_ticket_key"
          (PyValue.pstr "KAN-7") [] rfl⟩

end Aegis
